import Mathlib

/-!
# HomeNerdlet: filtering, detail join, percentage and selection

A shallow embedding of `src/nerdlets/home/index.js` (the `HomeNerdlet` React
component) and theorems about it.

The two JSON imports (`data.json`, `store_details.json`) are not part of the
sources, so the store list and the facet list are taken as parameters
(`storeData`, `facets`).  `this.state` is an explicit record and every handler
is a function from the old state to the new one.

JavaScript numbers are modelled by `JSNum`: a finite double is carried by its
exact rational value (the two signed zeros are identified, as `===` does),
and the results of arithmetic are rounded to binary64, round-to-nearest,
ties-to-even, overflowing to the infinities.
-/

namespace HomeNerdlet

/-! ## JavaScript numbers -/

/-- A JavaScript Number value. `fin q` is a finite double with exact value `q`. -/
inductive JSNum where
  | nan
  | negInf
  | fin (q : ℚ)
  | posInf
  deriving DecidableEq

/-- Quotient `n / d` (for `0 < d`) rounded to the nearest natural number, ties to even. -/
def roundHalfEven (n d : Nat) : Nat :=
  if 2 * (n % d) < d then n / d
  else if d < 2 * (n % d) then n / d + 1
  else if (n / d) % 2 = 0 then n / d
  else n / d + 1

/-- Number of halvings that bring `n` below 2, at most `fuel` of them. -/
def halvings : Nat → Nat → Nat
  | 0, _ => 0
  | fuel + 1, n => if n < 2 then 0 else halvings fuel (n / 2) + 1

/-- Position of the leading bit: `2 ^ bitIndex n ≤ n < 2 ^ (bitIndex n + 1)` for `0 < n`. -/
def bitIndex (n : Nat) : Nat := halvings n n

/-- For `0 < n` and `0 < d`: the exponent `e` with `2 ^ e ≤ n / d < 2 ^ (e + 1)`. -/
def floorLog2 (n d : Nat) : Int :=
  let e0 : Int := (bitIndex n : Int) - (bitIndex d : Int)
  if 0 ≤ e0 then
    (if d * 2 ^ e0.toNat ≤ n then e0 else e0 - 1)
  else
    (if d ≤ n * 2 ^ (-e0).toNat then e0 else e0 - 1)

/-- Magnitude `n / d` (with `0 < n`, `0 < d`) rounded to binary64: 53 significant bits
for normal numbers, multiples of `2 ^ (-1074)` for subnormal ones; `none` when the
rounded magnitude reaches `2 ^ 1024` (overflow). -/
def roundMagnitude (n d : Nat) : Option ℚ :=
  let k : Int := max (floorLog2 n d - 52) (-1074)
  if 0 ≤ k then
    (let v : Nat := roundHalfEven n (d * 2 ^ k.toNat) * 2 ^ k.toNat
     if 2 ^ 1024 ≤ v then none else some (v : ℚ))
  else
    some (mkRat (roundHalfEven (n * 2 ^ (-k).toNat) d : Nat) (2 ^ (-k).toNat))

/-- The Number value of a real (here rational) result: IEEE 754 binary64,
round to nearest, ties to even. -/
def roundDouble (q : ℚ) : JSNum :=
  if q = 0 then JSNum.fin 0
  else
    match roundMagnitude q.num.natAbs q.den with
    | none => if 0 < q then JSNum.posInf else JSNum.negInf
    | some m => if 0 < q then JSNum.fin m else JSNum.fin (-m)

namespace JSNum

/-- JavaScript `a < b` on numbers: false as soon as one operand is NaN. -/
def lt : JSNum → JSNum → Bool
  | nan, _ => false
  | _, nan => false
  | negInf, negInf => false
  | negInf, _ => true
  | fin _, negInf => false
  | fin a, fin b => decide (a < b)
  | fin _, posInf => true
  | posInf, _ => false

/-- JavaScript `a >= b` on numbers: false as soon as one operand is NaN. -/
def ge : JSNum → JSNum → Bool
  | nan, _ => false
  | _, nan => false
  | _, negInf => true
  | negInf, _ => false
  | fin a, fin b => decide (b ≤ a)
  | fin _, posInf => false
  | posInf, _ => true

/-- JavaScript `a / b` on numbers (a zero divisor is read as `+0`). -/
def div : JSNum → JSNum → JSNum
  | nan, _ => nan
  | _, nan => nan
  | fin a, fin b =>
    if b = 0 then (if a = 0 then nan else if 0 < a then posInf else negInf)
    else roundDouble (a / b)
  | fin _, _ => fin 0
  | posInf, fin b => if 0 ≤ b then posInf else negInf
  | negInf, fin b => if 0 ≤ b then negInf else posInf
  | _, _ => nan

/-- JavaScript `a * b` on numbers. -/
def mul : JSNum → JSNum → JSNum
  | nan, _ => nan
  | _, nan => nan
  | fin a, fin b => roundDouble (a * b)
  | fin a, posInf => if a = 0 then nan else if 0 < a then posInf else negInf
  | fin a, negInf => if a = 0 then nan else if 0 < a then negInf else posInf
  | posInf, fin b => if b = 0 then nan else if 0 < b then posInf else negInf
  | negInf, fin b => if b = 0 then nan else if 0 < b then negInf else posInf
  | posInf, posInf => posInf
  | negInf, negInf => posInf
  | posInf, negInf => negInf
  | negInf, posInf => negInf

end JSNum

/-! ## Strings: white space, `trim`, `parseInt` -/

/-- White space and line terminators of ECMAScript (what `trim` and `parseInt` strip). -/
def isJSWhiteSpace (c : Char) : Bool :=
  c.toNat ∈ [0x9, 0xA, 0xB, 0xC, 0xD, 0x20, 0xA0, 0x1680, 0x2028, 0x2029, 0x202F,
    0x205F, 0x3000, 0xFEFF] || (0x2000 ≤ c.toNat && c.toNat ≤ 0x200A)

/-- `String.prototype.trim`. -/
def jsTrim (s : String) : String :=
  String.mk ((((s.toList.dropWhile isJSWhiteSpace).reverse).dropWhile isJSWhiteSpace).reverse)

/-- Value of a character as a digit in the given radix (10 or 16), if it is one. -/
def digitValue (radix : Nat) (c : Char) : Option Nat :=
  if '0' ≤ c ∧ c ≤ '9' then some (c.toNat - '0'.toNat)
  else if radix = 16 ∧ 'a' ≤ c ∧ c ≤ 'f' then some (c.toNat - 'a'.toNat + 10)
  else if radix = 16 ∧ 'A' ≤ c ∧ c ≤ 'F' then some (c.toNat - 'A'.toNat + 10)
  else none

/-- The longest prefix of radix digits, read as a number: `(digits read, value)`. -/
def readDigits (radix : Nat) : List Char → Nat → Nat → Nat × Nat
  | [], count, acc => (count, acc)
  | c :: cs, count, acc =>
    match digitValue radix c with
    | some v => readDigits radix cs (count + 1) (acc * radix + v)
    | none => (count, acc)

/-- The global `parseInt(string)` with no radix argument: leading white space is
skipped, then an optional sign, then an optional `0x`/`0X` (radix 16, else 10),
then the longest run of digits; no digit gives NaN, and otherwise the result is the
Number value of the signed integer read (every digit counts, none is dropped). -/
def parseInt (s : String) : JSNum :=
  let t := s.toList.dropWhile isJSWhiteSpace
  let neg : Bool := t.head? = some '-'
  let t := if t.head? = some '-' ∨ t.head? = some '+' then t.tail else t
  let hex : Bool := t.take 2 = ['0', 'x'] || t.take 2 = ['0', 'X']
  let r := if hex then readDigits 16 (t.drop 2) 0 0 else readDigits 10 t 0 0
  if r.1 = 0 then JSNum.nan
  else if neg then roundDouble (-(r.2 : ℚ)) else roundDouble (r.2 : ℚ)

/-! ## Data model (`data.json`, `store_details.json`) -/

/-- A store identifier as the JSON data carries it (`storeNumber`, a facet's `name`):
a string or a number; numbers are the non-negative safe integers, whose `String(n)`
is the decimal numeral. -/
inductive Ident where
  | str (s : String)
  | num (n : Nat)
  deriving DecidableEq

namespace Ident

/-- `String(id)`. -/
def toStr : Ident → String
  | str s => s
  | num n => toString n

/-- Truthiness of an identifier: `""` and `0` are falsy. -/
def truthy : Ident → Bool
  | str s => s != ""
  | num n => n != 0

end Ident

/-- One element of `data.json` (the fields the component reads). -/
structure StoreRecord where
  storeNumber : Ident
  name : String
  typeCode : String
  typeDesc : String
  latitude : ℚ
  longitude : ℚ
  healthScore : ℚ
  dashboardUrl : Option String
  customerFootfall : Option ℚ
  deriving DecidableEq

/-- The objects under a facet's `results` and `totalResult` keys. -/
structure Counts where
  uniqueCount : Option ℚ
  deriving DecidableEq

/-- The object under a facet's `performanceStats` key. -/
structure PerformanceStats where
  responseTime : Option ℚ
  deriving DecidableEq

/-- One element of `storeDetails.facets`; a nested object may be absent. -/
structure Facet where
  name : Ident
  results : Option Counts
  totalResult : Option Counts
  performanceStats : Option PerformanceStats
  deriving DecidableEq

/-- The object `{ ...store, details }` that `handleStoreSelection` stores. -/
structure SelectedStore where
  store : StoreRecord
  details : Option Facet
  deriving DecidableEq

/-- The value of `mousePosition`. -/
structure MousePosition where
  x : ℚ
  y : ℚ
  deriving DecidableEq

/-- The component's `this.state`. -/
structure State where
  searchStoreId : String
  selectedType : String
  selectedStore : Option SelectedStore
  hoveredStore : Option StoreRecord
  mousePosition : MousePosition
  results : List StoreRecord
  filterHealthScore : String
  deriving DecidableEq

/-- The state the constructor sets up from `storeData`. -/
def constructor (storeData : List StoreRecord) : State where
  searchStoreId := ""
  selectedType := ""
  selectedStore := none
  hoveredStore := none
  mousePosition := { x := 0, y := 0 }
  results := if storeData.length > 0 then storeData else []
  filterHealthScore := ""

/-! ## Methods -/

/-- Truthiness of a string: only `""` is falsy. -/
def truthyStr (s : String) : Bool := s != ""

/-- `v || d` for an optional JSON number `v`: absent and `0` are falsy. -/
def orNum (v : Option ℚ) (d : ℚ) : ℚ :=
  match v with
  | some q => if q = 0 then d else q
  | none => d

/-- `getStoreDetails(storeNumber)`. -/
def getStoreDetails (facets : List Facet) (storeNumber : Ident) : Option Facet :=
  if !storeNumber.truthy then none
  else
    let storeNumberStr := storeNumber.toStr
    facets.find? (fun detail => detail.name.toStr == storeNumberStr)

/-- `handleStoreSelection(storeNumber)`. -/
def handleStoreSelection (facets : List Facet) (st : State) (storeNumber : Ident) : State :=
  match st.results.find? (fun s => s.storeNumber.toStr == storeNumber.toStr) with
  | some store =>
    let details := getStoreDetails facets storeNumber
    { st with selectedStore := some { store := store, details := details } }
  | none => { st with selectedStore := none }

/-- `handleMarkerClick(store)`: the URL handed to `window.open`; the state is not touched. -/
def handleMarkerClick (store : StoreRecord) : String :=
  match store.dashboardUrl with
  | some url => if truthyStr url then url else "https://newrelic.com/store/" ++ store.storeNumber.toStr
  | none => "https://newrelic.com/store/" ++ store.storeNumber.toStr

/-- `handleMouseOver(store, event)`. -/
def handleMouseOver (st : State) (store : StoreRecord) (clientX clientY : ℚ) : State :=
  { st with hoveredStore := some store, mousePosition := { x := clientX, y := clientY } }

/-- `handleMouseOut()`. -/
def handleMouseOut (st : State) : State :=
  { st with hoveredStore := none }

/-- The three marker icons. -/
inductive Icon where
  | iconRed
  | iconYellow
  | iconGreen
  deriving DecidableEq

/-- `getStoreIcon(percentage)`. -/
def getStoreIcon (percentage : JSNum) : Icon :=
  if percentage.lt (.fin 50) then Icon.iconRed
  else if percentage.lt (.fin 80) then Icon.iconYellow
  else Icon.iconGreen

/-- The constant `uniqueCount` of `calculatePercentage`:
`details?.results?.uniqueCount || 0`. -/
def uniqueCount (details : Option Facet) : ℚ :=
  orNum ((details.bind (fun d => d.results)).bind (fun r => r.uniqueCount)) 0

/-- The constant `totalCount` of `calculatePercentage`:
`details?.totalResult?.uniqueCount || 1`. -/
def totalCount (details : Option Facet) : ℚ :=
  orNum ((details.bind (fun d => d.totalResult)).bind (fun r => r.uniqueCount)) 1

/-- `calculatePercentage(store)` (the `console.log` line has no effect on the result). -/
def calculatePercentage (facets : List Facet) (store : StoreRecord) : JSNum :=
  let details := getStoreDetails facets store.storeNumber
  ((JSNum.fin (uniqueCount details)).div (.fin (totalCount details))).mul (.fin 100)

/-! ## `render` -/

/-- `matchesId` in the filter callback of `render`. -/
def matchesId (searchStoreId : String) (store : StoreRecord) : Bool :=
  if truthyStr searchStoreId then store.storeNumber.toStr == searchStoreId else true

/-- `matchesType` in the filter callback of `render`. -/
def matchesType (selectedType : String) (store : StoreRecord) : Bool :=
  if truthyStr selectedType then store.typeCode == selectedType else true

/-- `matchesHealth` in the filter callback of `render`. -/
def matchesHealth (filterHealthScore : String) (store : StoreRecord) : Bool :=
  if truthyStr filterHealthScore then (JSNum.fin store.healthScore).ge (parseInt filterHealthScore)
  else true

/-- The constant `filteredResults` of `render`. -/
def filteredResults (st : State) : List StoreRecord :=
  st.results.filter (fun store =>
    matchesId st.searchStoreId store && matchesType st.selectedType store
      && matchesHealth st.filterHealthScore store)

/-- The marker `render` draws for a filtered store: its percentage and its icon. -/
def marker (facets : List Facet) (store : StoreRecord) : JSNum × Icon :=
  let percentage := calculatePercentage facets store
  (percentage, getStoreIcon percentage)

/-- What `{v || 'N/A'}` puts on the page: the number, or the text. -/
inductive Shown where
  | num (q : ℚ)
  | text (s : String)
  deriving DecidableEq

/-- `v || 'N/A'` for an optional JSON number. -/
def orNA (v : Option ℚ) : Shown :=
  match v with
  | some q => if q = 0 then Shown.text "N/A" else Shown.num q
  | none => Shown.text "N/A"

/-- The lines of the metrics panel for a selected store. -/
structure MetricsPanel where
  store : String
  healthScore : ℚ
  customerFootfall : Shown
  responseTime : Shown
  incidentCount : ℚ
  deriving DecidableEq

/-- The metrics panel of `render`: `none` stands for the "No store selected" text. -/
def metricsPanel (selectedStore : Option SelectedStore) : Option MetricsPanel :=
  match selectedStore with
  | some sel =>
    some {
      store := sel.store.name
      healthScore := sel.store.healthScore
      customerFootfall := orNA sel.store.customerFootfall
      responseTime :=
        orNA ((sel.details.bind (fun d => d.performanceStats)).bind (fun p => p.responseTime))
      incidentCount :=
        orNum ((sel.details.bind (fun d => d.results)).bind (fun r => r.uniqueCount)) 0 }
  | none => none

/-! ## Events wired in `render` -/

/-- The events `render` attaches a handler to. -/
inductive Event where
  | searchChange (value : String)
  | typeChange (value : String)
  | healthChange (value : String)
  | markerClick (store : StoreRecord)
  | markerMouseOver (store : StoreRecord) (clientX clientY : ℚ)
  | markerMouseOut

/-- The state after the handler of an event has run: the three `onChange` handlers of
the filters, and `handleMarkerClick` (which only opens a URL), `handleMouseOver` and
`handleMouseOut` for a marker. -/
def step (st : State) : Event → State
  | .searchChange value => { st with searchStoreId := jsTrim value }
  | .typeChange value => { st with selectedType := value }
  | .healthChange value => { st with filterHealthScore := value }
  | .markerClick _ => st
  | .markerMouseOver store clientX clientY => handleMouseOver st store clientX clientY
  | .markerMouseOut => handleMouseOut st

/-- The state after a sequence of events, starting from the constructor's state. -/
def run (storeData : List StoreRecord) (events : List Event) : State :=
  events.foldl step (constructor storeData)

/-! ## The claims' own wording, and concrete data -/

/-- The percentage as the specification words it, to compare with `calculatePercentage`:
the facet's counts are used as they are when present, `0` and `1` stand in only for
an absent facet or an absent nested field. -/
def claimedPercentage (facets : List Facet) (store : StoreRecord) : JSNum :=
  let details := getStoreDetails facets store.storeNumber
  let uniqueCount := ((details.bind (fun d => d.results)).bind (fun r => r.uniqueCount)).getD 0
  let totalCount := ((details.bind (fun d => d.totalResult)).bind (fun r => r.uniqueCount)).getD 1
  ((JSNum.fin uniqueCount).div (.fin totalCount)).mul (.fin 100)

/-- A store record with the given identifier, type code and health score. -/
def mkStore (storeNumber : Ident) (typeCode : String) (healthScore : ℚ) : StoreRecord where
  storeNumber := storeNumber
  name := "Store " ++ storeNumber.toStr
  typeCode := typeCode
  typeDesc := typeCode
  latitude := 37
  longitude := -122
  healthScore := healthScore
  dashboardUrl := none
  customerFootfall := none

/-- A facet with the given name and the two counts present. -/
def mkFacet (name : Ident) (uniqueCount totalCount : ℚ) : Facet where
  name := name
  results := some { uniqueCount := some uniqueCount }
  totalResult := some { uniqueCount := some totalCount }
  performanceStats := none

/-- Store `"2221"` of type `"RE"` with health score 65. -/
def store2221 : StoreRecord := mkStore (.str "2221") "RE" 65

/-- Store `"3100"` of type `"FL"` with health score 40. -/
def store3100 : StoreRecord := mkStore (.str "3100") "FL" 40

/-- The facet of store `"2221"`: 40 unique of 50. -/
def facet2221 : Facet := mkFacet (.str "2221") 40 50

/-- A state holding the two stores, with the given filter values. -/
def stateWith (searchStoreId selectedType filterHealthScore : String) : State :=
  { constructor [store3100, store2221] with
    searchStoreId := searchStoreId
    selectedType := selectedType
    filterHealthScore := filterHealthScore }

/-- A facet named `"0"`: 50 unique of 100. -/
def facetNamed0 : Facet := mkFacet (.str "0") 50 100

/-- A facet of store `"2221"` whose total count is present and equal to 0. -/
def facetZeroTotal : Facet := mkFacet (.str "2221") 5 0

/-- A state in which store `"3100"` was selected earlier. -/
def stateSelected3100 : State :=
  { constructor [store3100, store2221] with
    selectedStore := some { store := store3100, details := none } }

/-! ## Shared lemmas -/

theorem truthyStr_eq_true_iff (s : String) : truthyStr s = true ↔ s ≠ "" := by
  simp [truthyStr]

theorem matchesId_iff (searchStoreId : String) (store : StoreRecord) :
    matchesId searchStoreId store = true ↔
      (searchStoreId = "" ∨ store.storeNumber.toStr = searchStoreId) := by
  unfold matchesId
  by_cases h : searchStoreId = ""
  · simp [h, truthyStr]
  · simp [h, truthyStr]

theorem matchesType_iff (selectedType : String) (store : StoreRecord) :
    matchesType selectedType store = true ↔
      (selectedType = "" ∨ store.typeCode = selectedType) := by
  unfold matchesType
  by_cases h : selectedType = ""
  · simp [h, truthyStr]
  · simp [h, truthyStr]

theorem matchesHealth_iff (filterHealthScore : String) (store : StoreRecord) :
    matchesHealth filterHealthScore store = true ↔
      (filterHealthScore = "" ∨
        (JSNum.fin store.healthScore).ge (parseInt filterHealthScore) = true) := by
  unfold matchesHealth
  by_cases h : filterHealthScore = ""
  · simp [h, truthyStr]
  · simp [h, truthyStr]

theorem parseInt_fifty : parseInt "50" = JSNum.fin 50 := by decide!

/-! ## Filter evaluator -/

/-- C1: a record is in `filteredResults` iff it is in `results` and the identifier,
type and health predicates all hold; `filteredResults` is `results` filtered by their
conjunction; with the other two filters empty, a non-empty identifier keeps exactly
the string-matching records (none when no record has it), and the threshold `"50"`
keeps exactly the records with `healthScore >= 50`. -/
theorem filteredResults_iff_predicates :
    (∀ (st : State) (r : StoreRecord),
      r ∈ filteredResults st ↔
        r ∈ st.results ∧
        (st.searchStoreId = "" ∨ r.storeNumber.toStr = st.searchStoreId) ∧
        (st.selectedType = "" ∨ r.typeCode = st.selectedType) ∧
        (st.filterHealthScore = "" ∨
          (JSNum.fin r.healthScore).ge (parseInt st.filterHealthScore) = true)) ∧
    (∀ (st : State),
      filteredResults st = st.results.filter (fun r => decide (
        (st.searchStoreId = "" ∨ r.storeNumber.toStr = st.searchStoreId) ∧
        (st.selectedType = "" ∨ r.typeCode = st.selectedType) ∧
        (st.filterHealthScore = "" ∨
          (JSNum.fin r.healthScore).ge (parseInt st.filterHealthScore) = true)))) ∧
    (∀ (st : State), st.searchStoreId ≠ "" → st.selectedType = "" →
      st.filterHealthScore = "" →
      filteredResults st
          = st.results.filter (fun r => decide (r.storeNumber.toStr = st.searchStoreId)) ∧
        ((∀ r ∈ st.results, r.storeNumber.toStr ≠ st.searchStoreId) →
          filteredResults st = [])) ∧
    (∀ (st : State), st.searchStoreId = "" → st.selectedType = "" →
      st.filterHealthScore = "50" →
      filteredResults st = st.results.filter (fun r => decide (50 ≤ r.healthScore))) := by
  have key : ∀ (st : State) (r : StoreRecord),
      (matchesId st.searchStoreId r && matchesType st.selectedType r
        && matchesHealth st.filterHealthScore r) = true ↔
      ((st.searchStoreId = "" ∨ r.storeNumber.toStr = st.searchStoreId) ∧
        (st.selectedType = "" ∨ r.typeCode = st.selectedType) ∧
        (st.filterHealthScore = "" ∨
          (JSNum.fin r.healthScore).ge (parseInt st.filterHealthScore) = true)) := by
    intro st r
    rw [Bool.and_eq_true, Bool.and_eq_true, matchesId_iff, matchesType_iff, matchesHealth_iff,
      and_assoc]
  refine ⟨?_, ?_, ?_, ?_⟩
  · intro st r
    unfold filteredResults
    rw [List.mem_filter, key]
  · intro st
    unfold filteredResults
    apply List.filter_congr
    intro r _
    rw [Bool.eq_iff_iff, key, decide_eq_true_iff]
  · intro st hid hty hhs
    have heq : filteredResults st
        = st.results.filter (fun r => decide (r.storeNumber.toStr = st.searchStoreId)) := by
      unfold filteredResults
      apply List.filter_congr
      intro r _
      rw [Bool.eq_iff_iff, key, decide_eq_true_iff]
      simp [hid, hty, hhs]
    refine ⟨heq, ?_⟩
    intro hnone
    rw [heq, List.filter_eq_nil_iff]
    intro r hr
    simpa using hnone r hr
  · intro st hid hty hhs
    unfold filteredResults
    apply List.filter_congr
    intro r _
    rw [Bool.eq_iff_iff, key, decide_eq_true_iff, hhs, parseInt_fifty]
    simp [hid, hty, JSNum.ge]

/-- C2: `filteredResults` is a sub-sequence of `results`: its elements are elements of
`results`, in the same relative order, none more often than in `results`; the empty
collection filters to the empty sequence. -/
theorem filteredResults_sublist (st : State) :
    List.Sublist (filteredResults st) st.results ∧
    (∀ r, r ∈ filteredResults st → r ∈ st.results) ∧
    (∀ r, (filteredResults st).count r ≤ st.results.count r) ∧
    (st.results = [] → filteredResults st = []) := by
  have hsub : List.Sublist (filteredResults st) st.results := by
    unfold filteredResults
    exact List.filter_sublist _
  refine ⟨hsub, fun r hr => hsub.subset hr, fun r => hsub.count_le r, ?_⟩
  intro h
  unfold filteredResults
  rw [h]
  rfl

/-- C6: with a non-empty `filterHealthScore` that `parseInt` reads as NaN, the filtered
result is empty, whatever the collection and the other two filters. -/
theorem filteredResults_nan_threshold (st : State)
    (hne : st.filterHealthScore ≠ "")
    (hnan : parseInt st.filterHealthScore = JSNum.nan) :
    filteredResults st = [] := by
  unfold filteredResults
  rw [List.filter_eq_nil_iff]
  intro r _
  have hh : matchesHealth st.filterHealthScore r = false := by
    unfold matchesHealth
    rw [(truthyStr_eq_true_iff _).mpr hne, hnan]
    simp [JSNum.ge]
  simp [hh]

/-- A concrete run of C1: with type `"RE"` and threshold `"50"`, store `"2221"` is kept
and store `"3100"` is not. -/
theorem filteredResults_iff_predicates_witness :
    store2221 ∈ filteredResults (stateWith "" "RE" "50") ∧
    store3100 ∉ filteredResults (stateWith "" "RE" "50") ∧
    filteredResults (stateWith "" "RE" "50") = [store2221] := by
  refine ⟨?_, ?_, ?_⟩
  · rw [filteredResults_iff_predicates.1]; decide!
  · rw [filteredResults_iff_predicates.1]; decide!
  · decide!

/-- A concrete run of C2 on the two-store state. -/
theorem filteredResults_sublist_witness :
    List.Sublist (filteredResults (stateWith "" "" "50")) [store3100, store2221] ∧
    filteredResults (stateWith "" "" "50") = [store2221] :=
  ⟨(filteredResults_sublist (stateWith "" "" "50")).1, by decide!⟩

/-- A concrete run of C6: the threshold `"abc"` empties the result. -/
theorem filteredResults_nan_threshold_witness :
    (stateWith "" "" "abc").filterHealthScore ≠ "" ∧
    parseInt (stateWith "" "" "abc").filterHealthScore = JSNum.nan ∧
    (stateWith "" "" "abc").results = [store3100, store2221] ∧
    filteredResults (stateWith "" "" "abc") = [] :=
  ⟨by decide!, by decide!, by decide!,
    filteredResults_nan_threshold (stateWith "" "" "abc") (by decide!) (by decide!)⟩

/-! ## Detail joiner -/

theorem getStoreDetails_falsy (facets : List Facet) (id : Ident) (h : id.truthy = false) :
    getStoreDetails facets id = none := by
  simp [getStoreDetails, h]

theorem getStoreDetails_truthy (facets : List Facet) (id : Ident) (h : id.truthy = true) :
    getStoreDetails facets id = facets.find? (fun detail => detail.name.toStr == id.toStr) := by
  simp [getStoreDetails, h]

theorem getStoreDetails_no_match (facets : List Facet) (id : Ident)
    (h : ∀ f ∈ facets, f.name.toStr ≠ id.toStr) : getStoreDetails facets id = none := by
  cases ht : id.truthy
  · exact getStoreDetails_falsy facets id ht
  · rw [getStoreDetails_truthy facets id ht, List.find?_eq_none]
    intro f hf
    simpa using h f hf

/-- C3, as the code has it: for a falsy identifier (`""` or `0`) the result is null
whatever the facets; for every other identifier the result is the first facet, in
collection order, whose name coerced to string equals the identifier coerced to
string, and it is null iff no facet has such a name. -/
theorem getStoreDetails_first_match (facets : List Facet) (id : Ident) :
    (id.truthy = false → getStoreDetails facets id = none) ∧
    (id.truthy = true →
      (∀ f, getStoreDetails facets id = some f ↔
        ∃ pre post, facets = pre ++ f :: post ∧ f.name.toStr = id.toStr ∧
          ∀ g ∈ pre, g.name.toStr ≠ id.toStr) ∧
      (getStoreDetails facets id = none ↔ ∀ f ∈ facets, f.name.toStr ≠ id.toStr)) := by
  refine ⟨getStoreDetails_falsy facets id, ?_⟩
  intro ht
  rw [getStoreDetails_truthy facets id ht]
  refine ⟨?_, ?_⟩
  · intro f
    rw [List.find?_eq_some]
    constructor
    · rintro ⟨hf, pre, post, hsplit, hpre⟩
      refine ⟨pre, post, hsplit, by simpa using hf, ?_⟩
      intro g hg
      simpa using hpre g hg
    · rintro ⟨pre, post, hsplit, hf, hpre⟩
      refine ⟨by simpa using hf, pre, post, hsplit, ?_⟩
      intro g hg
      simpa using hpre g hg
  · rw [List.find?_eq_none]
    constructor
    · intro h f hf
      simpa using h f hf
    · intro h f hf
      simpa using h f hf

/-- The claim C3 fails at identifier `0`: facet `"0"` has the name `String(0)`, and
`getStoreDetails(0)` is null all the same. -/
theorem getStoreDetails_zero_counterexample :
    facetNamed0 ∈ [facetNamed0] ∧
    facetNamed0.name.toStr = (Ident.num 0).toStr ∧
    getStoreDetails [facetNamed0] (Ident.num 0) = none := by
  decide!

/-- A concrete run of C3: identifier `"2221"` finds its facet behind another one, and
the number `2221` finds it too. -/
theorem getStoreDetails_first_match_witness :
    (Ident.str "2221").truthy = true ∧
    getStoreDetails [facetNamed0, facet2221, facetZeroTotal] (Ident.str "2221") = some facet2221 ∧
    getStoreDetails [facetNamed0, facet2221] (Ident.num 2221) = some facet2221 ∧
    getStoreDetails [facetNamed0] (Ident.str "2221") = none :=
  ⟨by decide!,
    (((getStoreDetails_first_match [facetNamed0, facet2221, facetZeroTotal]
      (Ident.str "2221")).2 (by decide!)).1 facet2221).mpr
      ⟨[facetNamed0], [facetZeroTotal], by decide!, by decide!, by decide!⟩,
    by decide!, by decide!⟩

/-! ## Percentage and icon -/

theorem orNum_one_ne_zero (v : Option ℚ) : orNum v 1 ≠ 0 := by
  unfold orNum
  cases v with
  | none => simp
  | some q =>
    by_cases h : q = 0
    · simp [h]
    · simp [h]

theorem roundDouble_ne_nan (q : ℚ) : roundDouble q ≠ JSNum.nan := by
  unfold roundDouble
  by_cases h0 : q = 0
  · simp [h0]
  · rw [if_neg h0]
    cases roundMagnitude q.num.natAbs q.den with
    | none => by_cases hp : 0 < q <;> simp [hp]
    | some m => by_cases hp : 0 < q <;> simp [hp]

theorem calculatePercentage_unfold (facets : List Facet) (store : StoreRecord) :
    calculatePercentage facets store =
      ((JSNum.fin (uniqueCount (getStoreDetails facets store.storeNumber))).div
        (.fin (totalCount (getStoreDetails facets store.storeNumber)))).mul (.fin 100) := rfl

theorem calculatePercentage_ne_nan (facets : List Facet) (store : StoreRecord) :
    calculatePercentage facets store ≠ JSNum.nan := by
  rw [calculatePercentage_unfold]
  have ht : totalCount (getStoreDetails facets store.storeNumber) ≠ 0 := orNum_one_ne_zero _
  simp only [JSNum.div, if_neg ht]
  generalize uniqueCount (getStoreDetails facets store.storeNumber) /
    totalCount (getStoreDetails facets store.storeNumber) = q
  have hq := roundDouble_ne_nan q
  cases hr : roundDouble q with
  | nan => exact absurd hr hq
  | negInf => simp [JSNum.mul]
  | posInf => simp [JSNum.mul]
  | fin a => simpa [JSNum.mul] using roundDouble_ne_nan (a * 100)

theorem percentage_of_counts (facets : List Facet) (store : StoreRecord) (d : Facet) (u t : ℚ)
    (hd : getStoreDetails facets store.storeNumber = some d)
    (hu : d.results = some { uniqueCount := some u })
    (ht : d.totalResult = some { uniqueCount := some t })
    (hu0 : u ≠ 0) (ht0 : t ≠ 0) :
    calculatePercentage facets store = ((JSNum.fin u).div (.fin t)).mul (.fin 100) := by
  rw [calculatePercentage_unfold, hd]
  simp [uniqueCount, totalCount, orNum, hu, ht, hu0, ht0]

/-- C4, as the code has it: the percentage is `uniqueCount / totalCount * 100` in double
arithmetic, on the counts of the facet `getStoreDetails` returns, where `uniqueCount` is
replaced by 0 when the facet or the nested field is absent, and `totalCount` is replaced
by 1 when the facet or the nested field is absent or when the value present is 0; every
other present value is used as it is. -/
theorem calculatePercentage_defaults (facets : List Facet) (store : StoreRecord) :
    calculatePercentage facets store =
      ((JSNum.fin
          (match ((getStoreDetails facets store.storeNumber).bind (fun d => d.results)).bind
              (fun r => r.uniqueCount) with
            | some v => v
            | none => 0)).div
        (.fin
          (match ((getStoreDetails facets store.storeNumber).bind (fun d => d.totalResult)).bind
              (fun r => r.uniqueCount) with
            | some v => if v = 0 then 1 else v
            | none => 1))).mul (.fin 100) := by
  rw [calculatePercentage_unfold]
  unfold uniqueCount totalCount orNum
  cases ((getStoreDetails facets store.storeNumber).bind (fun d => d.results)).bind
      (fun r => r.uniqueCount) with
  | none => rfl
  | some v =>
    by_cases hv : v = 0
    · simp [hv]
    · simp [hv]

/-- The claim C4 fails when the total count is present and 0: the code divides by 1
(5 / 1 * 100 = 500), where the counts used as they are give 5 / 0 * 100 = Infinity. -/
theorem calculatePercentage_zero_total_counterexample :
    getStoreDetails [facetZeroTotal] store2221.storeNumber = some facetZeroTotal ∧
    facetZeroTotal.totalResult = some { uniqueCount := some 0 } ∧
    calculatePercentage [facetZeroTotal] store2221 = JSNum.fin 500 ∧
    claimedPercentage [facetZeroTotal] store2221 = JSNum.posInf := by
  decide!

/-- A concrete run of C4: 40 unique of 50 gives 80. -/
theorem calculatePercentage_defaults_witness :
    calculatePercentage [facet2221] store2221 = JSNum.fin 80 ∧
    calculatePercentage [] store2221 = JSNum.fin 0 :=
  ⟨(calculatePercentage_defaults [facet2221] store2221).trans (by decide!),
    by decide!⟩

/-- C9: the divisor `totalCount` of `calculatePercentage` is never zero, whatever the
store and the facets: an absent facet, an absent `totalResult`, an absent
`totalResult.uniqueCount` and a `totalResult.uniqueCount` equal to 0 all give 1. -/
theorem totalCount_ne_zero :
    (∀ (facets : List Facet) (store : StoreRecord),
      totalCount (getStoreDetails facets store.storeNumber) ≠ 0 ∧
      calculatePercentage facets store =
        ((JSNum.fin (uniqueCount (getStoreDetails facets store.storeNumber))).div
          (.fin (totalCount (getStoreDetails facets store.storeNumber)))).mul (.fin 100)) ∧
    (∀ details : Option Facet, totalCount details ≠ 0) ∧
    totalCount none = 1 ∧
    (∀ d : Facet, d.totalResult = none → totalCount (some d) = 1) ∧
    (∀ d : Facet, d.totalResult = some { uniqueCount := none } → totalCount (some d) = 1) ∧
    (∀ d : Facet, d.totalResult = some { uniqueCount := some 0 } → totalCount (some d) = 1) := by
  refine ⟨fun facets store => ⟨orNum_one_ne_zero _, rfl⟩, fun details => orNum_one_ne_zero _,
    rfl, ?_, ?_, ?_⟩
  · intro d h
    simp [totalCount, orNum, h]
  · intro d h
    simp [totalCount, orNum, h]
  · intro d h
    simp [totalCount, orNum, h]

/-- A concrete run of C9: the facet whose total count is 0 is divided by 1. -/
theorem totalCount_ne_zero_witness :
    totalCount (getStoreDetails [facetZeroTotal] store2221.storeNumber) ≠ 0 ∧
    totalCount (getStoreDetails [facetZeroTotal] store2221.storeNumber) = 1 :=
  ⟨(totalCount_ne_zero.1 [facetZeroTotal] store2221).1, by decide!⟩

theorem getStoreIcon_of_ne_nan (p : JSNum) (hp : p ≠ JSNum.nan) :
    (getStoreIcon p = Icon.iconRed ↔ p.lt (.fin 50) = true) ∧
    (getStoreIcon p = Icon.iconYellow ↔ p.ge (.fin 50) = true ∧ p.lt (.fin 80) = true) ∧
    (getStoreIcon p = Icon.iconGreen ↔ p.ge (.fin 80) = true) := by
  cases p with
  | nan => exact absurd rfl hp
  | negInf => simp [getStoreIcon, JSNum.lt, JSNum.ge]
  | posInf => simp [getStoreIcon, JSNum.lt, JSNum.ge]
  | fin q =>
    by_cases h50 : q < 50
    · have h80 : q < 80 := by linarith
      simp [getStoreIcon, JSNum.lt, JSNum.ge, h50, h80]
    · by_cases h80 : q < 80
      · simp [getStoreIcon, JSNum.lt, JSNum.ge, h50, h80]
        exact not_lt.mp h50
      · simp [getStoreIcon, JSNum.lt, JSNum.ge, h50, h80]
        exact not_lt.mp h80

/-- C5: `getStoreIcon` is a three-way step function of the percentage. For the percentage
of every store under every facet collection, and for every finite number `q`, the icon
is red iff `p < 50`, yellow iff `50 <= p < 80`, green iff `p >= 80`; 50 gives yellow and
80 gives green. With `calculatePercentage`: counts 50 of 100 give 50 and yellow, 79 of
100 give 79 and yellow, 80 of 100 give 80 and green. -/
theorem getStoreIcon_step_function :
    (∀ (facets : List Facet) (store : StoreRecord),
      (getStoreIcon (calculatePercentage facets store) = Icon.iconRed ↔
        (calculatePercentage facets store).lt (.fin 50) = true) ∧
      (getStoreIcon (calculatePercentage facets store) = Icon.iconYellow ↔
        (calculatePercentage facets store).ge (.fin 50) = true ∧
          (calculatePercentage facets store).lt (.fin 80) = true) ∧
      (getStoreIcon (calculatePercentage facets store) = Icon.iconGreen ↔
        (calculatePercentage facets store).ge (.fin 80) = true)) ∧
    (∀ q : ℚ,
      (getStoreIcon (.fin q) = Icon.iconRed ↔ q < 50) ∧
      (getStoreIcon (.fin q) = Icon.iconYellow ↔ 50 ≤ q ∧ q < 80) ∧
      (getStoreIcon (.fin q) = Icon.iconGreen ↔ 80 ≤ q)) ∧
    getStoreIcon (.fin 50) = Icon.iconYellow ∧
    getStoreIcon (.fin 80) = Icon.iconGreen ∧
    (∀ (facets : List Facet) (store : StoreRecord) (d : Facet),
      getStoreDetails facets store.storeNumber = some d →
      ((d.results = some { uniqueCount := some 50 } →
          d.totalResult = some { uniqueCount := some 100 } →
          marker facets store = (.fin 50, Icon.iconYellow)) ∧
        (d.results = some { uniqueCount := some 79 } →
          d.totalResult = some { uniqueCount := some 100 } →
          marker facets store = (.fin 79, Icon.iconYellow)) ∧
        (d.results = some { uniqueCount := some 80 } →
          d.totalResult = some { uniqueCount := some 100 } →
          marker facets store = (.fin 80, Icon.iconGreen)))) := by
  refine ⟨?_, ?_, by decide!, by decide!, ?_⟩
  · intro facets store
    exact getStoreIcon_of_ne_nan _ (calculatePercentage_ne_nan facets store)
  · intro q
    simpa [JSNum.lt, JSNum.ge] using getStoreIcon_of_ne_nan (.fin q) (by simp)
  · intro facets store d hd
    refine ⟨?_, ?_, ?_⟩
    · intro hu ht
      unfold marker
      rw [percentage_of_counts facets store d 50 100 hd hu ht (by norm_num) (by norm_num)]
      decide!
    · intro hu ht
      unfold marker
      rw [percentage_of_counts facets store d 79 100 hd hu ht (by norm_num) (by norm_num)]
      decide!
    · intro hu ht
      unfold marker
      rw [percentage_of_counts facets store d 80 100 hd hu ht (by norm_num) (by norm_num)]
      decide!

/-- A concrete run of C5: 40 of 50 is 80 and green; without a facet the percentage is 0
and the icon red; percentage 49.5 is red. -/
theorem getStoreIcon_step_function_witness :
    marker [facet2221] store2221 = (.fin 80, Icon.iconGreen) ∧
    getStoreIcon (calculatePercentage [facet2221] store2221) = Icon.iconGreen ∧
    getStoreIcon (calculatePercentage [] store2221) = Icon.iconRed ∧
    getStoreIcon (.fin (99 / 2)) = Icon.iconRed :=
  ⟨by decide!,
    ((getStoreIcon_step_function.1 [facet2221] store2221).2.2).mpr (by decide!),
    ((getStoreIcon_step_function.1 [] store2221).1).mpr (by decide!),
    ((getStoreIcon_step_function.2.1 (99 / 2)).1).mpr (by norm_num)⟩

/-! ## Selection -/

theorem calculatePercentage_no_details (facets : List Facet) (store : StoreRecord)
    (h : getStoreDetails facets store.storeNumber = none) :
    calculatePercentage facets store = JSNum.fin 0 := by
  rw [calculatePercentage_unfold, h]
  simp [uniqueCount, totalCount, orNum, JSNum.div, JSNum.mul, roundDouble]

theorem handleStoreSelection_found (facets : List Facet) (st : State) (id : Ident)
    (store : StoreRecord)
    (h : st.results.find? (fun s => s.storeNumber.toStr == id.toStr) = some store) :
    handleStoreSelection facets st id =
      { st with selectedStore := some (SelectedStore.mk store (getStoreDetails facets id)) } := by
  simp [handleStoreSelection, h]

theorem handleStoreSelection_missing (facets : List Facet) (st : State) (id : Ident)
    (h : st.results.find? (fun s => s.storeNumber.toStr == id.toStr) = none) :
    handleStoreSelection facets st id = { st with selectedStore := none } := by
  simp [handleStoreSelection, h]

theorem find_first (results : List StoreRecord) (id : Ident)
    (h : ∃ r ∈ results, r.storeNumber.toStr = id.toStr) :
    ∃ pre r post, results = pre ++ r :: post ∧ r.storeNumber.toStr = id.toStr ∧
      (∀ x ∈ pre, x.storeNumber.toStr ≠ id.toStr) ∧
      results.find? (fun s => s.storeNumber.toStr == id.toStr) = some r := by
  cases hf : results.find? (fun s => s.storeNumber.toStr == id.toStr) with
  | none =>
    rw [List.find?_eq_none] at hf
    obtain ⟨r, hr, heq⟩ := h
    exact absurd (by simpa using hf r hr) (not_not.mpr heq)
  | some r =>
    have hf2 := hf
    rw [List.find?_eq_some] at hf2
    obtain ⟨hr, pre, post, hsplit, hpre⟩ := hf2
    refine ⟨pre, r, post, hsplit, by simpa using hr, ?_, rfl⟩
    intro x hx
    simpa using hpre x hx

/-- C7: for a store whose identifier matches no facet, `getStoreDetails` is null,
`calculatePercentage` is 0, the icon of that percentage is red, and if the store is in
`results`, `handleStoreSelection` with its identifier selects a record whose details
are null, for which the panel shows incident count 0 and response time "N/A". -/
theorem no_facet_defaults (facets : List Facet) (st : State) (store : StoreRecord)
    (h : ∀ f ∈ facets, f.name.toStr ≠ store.storeNumber.toStr) :
    getStoreDetails facets store.storeNumber = none ∧
    calculatePercentage facets store = JSNum.fin 0 ∧
    getStoreIcon (calculatePercentage facets store) = Icon.iconRed ∧
    (store ∈ st.results →
      ∃ sel panel,
        (handleStoreSelection facets st store.storeNumber).selectedStore = some sel ∧
        sel.store.storeNumber.toStr = store.storeNumber.toStr ∧
        sel.details = none ∧
        metricsPanel (handleStoreSelection facets st store.storeNumber).selectedStore
          = some panel ∧
        panel.incidentCount = 0 ∧
        panel.responseTime = Shown.text "N/A") := by
  have hd : getStoreDetails facets store.storeNumber = none :=
    getStoreDetails_no_match facets store.storeNumber h
  have hp : calculatePercentage facets store = JSNum.fin 0 :=
    calculatePercentage_no_details facets store hd
  refine ⟨hd, hp, ?_, ?_⟩
  · rw [hp]
    simp [getStoreIcon, JSNum.lt]
  · intro hmem
    obtain ⟨pre, r, post, _, hr, _, hfind⟩ :=
      find_first st.results store.storeNumber ⟨store, hmem, rfl⟩
    rw [handleStoreSelection_found facets st store.storeNumber r hfind, hd]
    exact ⟨{ store := r, details := none }, _, rfl, hr, rfl, rfl, rfl, rfl⟩

/-- A concrete run of C7: store `"3100"` has no facet among the facets of `"2221"`. -/
theorem no_facet_defaults_witness :
    (∀ f ∈ [facet2221], f.name.toStr ≠ store3100.storeNumber.toStr) ∧
    getStoreDetails [facet2221] store3100.storeNumber = none ∧
    calculatePercentage [facet2221] store3100 = JSNum.fin 0 ∧
    getStoreIcon (calculatePercentage [facet2221] store3100) = Icon.iconRed ∧
    ((metricsPanel (handleStoreSelection [facet2221] (stateWith "" "" "") store3100.storeNumber).selectedStore).map
      (fun panel => (panel.incidentCount, panel.responseTime))) = some (0, Shown.text "N/A") :=
  ⟨by decide!,
    (no_facet_defaults [facet2221] (stateWith "" "" "") store3100 (by decide!)).1,
    (no_facet_defaults [facet2221] (stateWith "" "" "") store3100 (by decide!)).2.1,
    (no_facet_defaults [facet2221] (stateWith "" "" "") store3100 (by decide!)).2.2.1,
    by decide!⟩

/-- C8: `handleStoreSelection(id)` on any state: if `results` has a record whose
`storeNumber` coerced to string equals `id` coerced to string, `selectedStore` becomes
the first such record with `details = getStoreDetails(id)`; otherwise it becomes null,
whatever was selected before. The filter values play no part, and no other field of
the state changes. -/
theorem handleStoreSelection_first_match (facets : List Facet) (st : State) (id : Ident) :
    ((∃ r ∈ st.results, r.storeNumber.toStr = id.toStr) →
      ∃ pre r post, st.results = pre ++ r :: post ∧ r.storeNumber.toStr = id.toStr ∧
        (∀ x ∈ pre, x.storeNumber.toStr ≠ id.toStr) ∧
        (handleStoreSelection facets st id).selectedStore
          = some { store := r, details := getStoreDetails facets id }) ∧
    ((∀ r ∈ st.results, r.storeNumber.toStr ≠ id.toStr) →
      (handleStoreSelection facets st id).selectedStore = none) ∧
    (∀ (searchStoreId selectedType filterHealthScore : String),
      (handleStoreSelection facets
          { st with searchStoreId := searchStoreId, selectedType := selectedType,
                    filterHealthScore := filterHealthScore } id).selectedStore
        = (handleStoreSelection facets st id).selectedStore) ∧
    handleStoreSelection facets st id
      = { st with selectedStore := (handleStoreSelection facets st id).selectedStore } := by
  refine ⟨?_, ?_, ?_, ?_⟩
  · intro h
    obtain ⟨pre, r, post, hsplit, hr, hpre, hfind⟩ := find_first st.results id h
    exact ⟨pre, r, post, hsplit, hr, hpre, by
      rw [handleStoreSelection_found facets st id r hfind]⟩
  · intro h
    have hfind : st.results.find? (fun s => s.storeNumber.toStr == id.toStr) = none := by
      rw [List.find?_eq_none]
      intro r hr
      simpa using h r hr
    rw [handleStoreSelection_missing facets st id hfind]
  · intro a b c
    unfold handleStoreSelection
    cases st.results.find? (fun s => s.storeNumber.toStr == id.toStr) <;> rfl
  · unfold handleStoreSelection
    cases st.results.find? (fun s => s.storeNumber.toStr == id.toStr) <;> rfl

/-- A concrete run of C8: selecting `"2221"`, whose facet has `results.uniqueCount = 40`,
shows incident count 40; selecting an identifier no store has clears the selection. -/
theorem handleStoreSelection_first_match_witness :
    (handleStoreSelection [facet2221] (stateWith "9999" "FL" "80") (.str "2221")).selectedStore
      = some { store := store2221, details := some facet2221 } ∧
    (metricsPanel (handleStoreSelection [facet2221] (stateWith "9999" "FL" "80")
      (.str "2221")).selectedStore).map (fun panel => panel.incidentCount) = some 40 ∧
    stateSelected3100.selectedStore ≠ none ∧
    (handleStoreSelection [facet2221] stateSelected3100 (.str "7")).selectedStore = none :=
  ⟨by decide!, by decide!, by decide!,
    (handleStoreSelection_first_match [facet2221] stateSelected3100 (.str "7")).2.1
      (by decide!)⟩

/-! ## Reachable states -/

theorem step_selectedStore (st : State) (e : Event) :
    (step st e).selectedStore = st.selectedStore := by
  cases e <;> rfl

/-- C10: in every state reached from the constructor's state by the events `render`
wires to handlers, `selectedStore` is null: no such event changes `selectedStore`, and a
marker click leaves the whole state as it is. -/
theorem selectedStore_stays_null :
    (∀ (storeData : List StoreRecord) (events : List Event),
      (run storeData events).selectedStore = none) ∧
    (∀ (st : State) (e : Event), (step st e).selectedStore = st.selectedStore) ∧
    (∀ (st : State) (store : StoreRecord), step st (.markerClick store) = st) := by
  refine ⟨?_, step_selectedStore, fun _ _ => rfl⟩
  intro storeData events
  have gen : ∀ (evs : List Event) (st : State),
      (evs.foldl step st).selectedStore = st.selectedStore := by
    intro evs
    induction evs with
    | nil => intro st; rfl
    | cons e es ih =>
      intro st
      rw [List.foldl_cons, ih, step_selectedStore]
  unfold run
  rw [gen]
  rfl

/-- A concrete run of C10: typing an identifier, hovering and clicking the marker of
store `"2221"` leaves `selectedStore` null and sets the filter and hover fields. -/
theorem selectedStore_stays_null_witness :
    (run [store3100, store2221]
      [.searchChange " 2221 ", .markerMouseOver store2221 10 20,
        .markerClick store2221]).selectedStore = none ∧
    (run [store3100, store2221]
      [.searchChange " 2221 ", .markerMouseOver store2221 10 20,
        .markerClick store2221]).searchStoreId = "2221" ∧
    (run [store3100, store2221]
      [.searchChange " 2221 ", .markerMouseOver store2221 10 20,
        .markerClick store2221]).hoveredStore = some store2221 :=
  ⟨selectedStore_stays_null.1 _ _, by decide!, by decide!⟩

end HomeNerdlet
